import Mathlib

/-!
Verification of the video synthesis core of the Money-Printer repository
(src/modules/video_synthesizer.py), shallowly embedded in Lean 4.

Python floats are modelled as rationals, Python exceptions as an explicit
error type threaded through `Except`, and calls to the global random number
generator as reads from an explicit stream of draws with an index that
advances on every draw.
-/

namespace MoneyPrinter

/-- Python exceptions that the video synthesizer can raise:
`VideoProcessingError` (the module's own class), `ZeroDivisionError`
(from `target / 0`), and a catch-all for every other `Exception`
(moviepy/PIL/encoder failures). -/
inductive Exc where
  | videoProcessingError (msg : String)
  | zeroDivisionError
  | otherError (msg : String)
deriving DecidableEq, Repr

/-- `KenBurnsConfig` dataclass: zoom range, pan range (fractions of the frame
size) and a direction string, defaulting to `random`. -/
structure KenBurnsConfig where
  zoomRange : ℚ × ℚ := (1, 6/5)
  panRange : ℚ × ℚ := (-1/2, 1/2)
  direction : String := "random"
deriving DecidableEq, Repr

/-- The global random generator, embedded as an explicit stream of draws in
`[0,1)` together with the index of the next draw. Each call to
`random.uniform` consumes one stream element and advances the index. -/
structure RandState where
  stream : Nat → ℚ
  idx : Nat

/-- `random.uniform(lo, hi)`: one draw from the stream, scaled to `[lo, hi]`. -/
def randUniform (lo hi : ℚ) (s : RandState) : ℚ × RandState :=
  (lo + (hi - lo) * s.stream s.idx, ⟨s.stream, s.idx + 1⟩)

/-- `random.choice(['in', 'out'])` applied when `config.direction == 'random'`
in `_apply_enhanced_ken_burns`; any other direction string is kept as is.
The boolean `coin` stands for the one random choice. -/
def resolveDirection (direction : String) (coin : Bool) : String :=
  if direction = "random" then (if coin then "in" else "out") else direction

/-- `ease_in_out(t)` from `_apply_enhanced_ken_burns`: normalize `t` by the
clip duration, then apply the piecewise quadratic.  The code performs no
clamping of the normalized value. -/
def ease_in_out (duration t : ℚ) : ℚ :=
  let u := t / duration
  if u < 1/2 then 2 * u * u
  else
    let v := u - 1
    1 - 2 * v * v

/-- The easing curve as the spec words it, on the already-normalized
progress `u`: `2u^2` for `u < 0.5` and `1 - 2(1-u)^2` for `u ≥ 0.5`.
Stated separately from `ease_in_out` so the two can be compared. -/
def easeSpec (u : ℚ) : ℚ :=
  if u < 1/2 then 2 * u ^ 2 else 1 - 2 * (1 - u) ^ 2

/-- `zoom_effect(t)`: take the configured zoom range, swap the endpoints when
the resolved direction is `out`, and interpolate along the eased progress. -/
def zoom_effect (cfg : KenBurnsConfig) (direction : String) (duration t : ℚ) : ℚ :=
  let zs := if direction = "out" then cfg.zoomRange.2 else cfg.zoomRange.1
  let ze := if direction = "out" then cfg.zoomRange.1 else cfg.zoomRange.2
  zs + (ze - zs) * ease_in_out duration t

/-- `pan_effect(t)`: compute the eased progress, then draw two fresh values
from `random.uniform(*config.pan_range)` — one per component — and scale each
by the progress.  The draws happen inside the function, so every evaluation
consumes two further stream elements. -/
def pan_effect (cfg : KenBurnsConfig) (duration t : ℚ) (s : RandState) :
    (ℚ × ℚ) × RandState :=
  let progress := ease_in_out duration t
  let (rx, s1) := randUniform cfg.panRange.1 cfg.panRange.2 s
  let (ry, s2) := randUniform cfg.panRange.1 cfg.panRange.2 s1
  ((rx * progress, ry * progress), s2)

/-- Python truthiness of a clip duration: `not d` is true when the duration
attribute is `None` or `0`. -/
def truthyDuration : Option ℚ → Bool
  | none => false
  | some d => decide (d ≠ 0)

/-- `_apply_enhanced_ken_burns` up to the point where the zoom and pan
callbacks are installed: raise when the clip duration is unset or zero,
otherwise resolve the direction once.  The returned string is the direction
the installed callbacks close over. -/
def applyEnhancedKenBurns (clipDuration : Option ℚ) (cfg : KenBurnsConfig)
    (coin : Bool) : Except Exc String :=
  if truthyDuration clipDuration = false then
    .error (.videoProcessingError "Cannot apply Ken Burns effect: clip duration not set")
  else .ok (resolveDirection cfg.direction coin)

/-- Python division `a / b`: raises `ZeroDivisionError` when `b = 0`. -/
def pydiv (a b : ℚ) : Except Exc ℚ :=
  if b = 0 then .error .zeroDivisionError else .ok (a / b)

/-- Python `int(q)`: truncation toward zero. -/
def pytrunc (q : ℚ) : ℤ :=
  if q < 0 then ⌈q⌉ else ⌊q⌋

/-- A moviepy `ImageClip` as `_process_resolution` and `_manage_clips` see
it: only the `size` attribute matters.  `none` stands for a missing or falsy
`size` attribute; a `none` component stands for Python `None` inside the
size tuple. -/
structure MPImageClip where
  size : Option (Option Nat × Option Nat)
deriving DecidableEq, Repr

/-- The guard `not hasattr(image, 'size') or not image.size or None in
image.size` shared by `_manage_clips` and `_process_resolution`.  Note that
a size of `(0, h)` or `(w, 0)` passes this guard. -/
def sizeCheckFails : Option (Option Nat × Option Nat) → Bool
  | some (some _, some _) => false
  | _ => true

/-- The image produced by `_process_resolution`: either the rescaled clip
returned directly, or a composite of the rescaled clip positioned at
`(x, y)` over a black canvas-sized background, whose size is the canvas. -/
inductive ProcImage where
  | plain (w h : Nat)
  | composite (canvasW canvasH innerW innerH : Nat) (x y : ℤ)
deriving DecidableEq, Repr

/-- The on-screen size of the processed image. -/
def procSize : ProcImage → Nat × Nat
  | .plain w h => (w, h)
  | .composite cw ch _ _ _ _ => (cw, ch)

/-- `_process_resolution`: check the size guard, compute
`scale = min(target_w / img_w, target_h / img_h)` (each division raising
`ZeroDivisionError` on a zero dimension), resize to
`(int(img_w * scale), int(img_h * scale))`, and either return the resized
clip when it matches the canvas or composite it centered (offsets via
Python floor division `//`) over a black canvas-sized background. -/
def processResolution (targetW targetH : Nat) (image : MPImageClip) :
    Except Exc ProcImage :=
  match image.size with
  | some (some imgW, some imgH) =>
    match pydiv targetW imgW with
    | .error e => .error e
    | .ok scaleW =>
      match pydiv targetH imgH with
      | .error e => .error e
      | .ok scaleH =>
        let scale := min scaleW scaleH
        let newW := (pytrunc (imgW * scale)).toNat
        let newH := (pytrunc (imgH * scale)).toNat
        if (newW, newH) = (targetW, targetH) then
          .ok (.plain newW newH)
        else
          .ok (.composite targetW targetH newW newH
            (Int.fdiv ((targetW : ℤ) - newW) 2) (Int.fdiv ((targetH : ℤ) - newH) 2))
  | _ => .error (.videoProcessingError "Invalid ImageClip: missing or invalid size attribute")

/-- What the `ImageClip` and `AudioFileClip` constructors and close calls do
during one call of `_manage_clips`: whether each constructor raises, the
attributes of the clips it yields, and whether each `close()` raises. -/
structure ClipEnv where
  imageOpens : Bool
  imageClipSize : Option (Option Nat × Option Nat)
  audioOpens : Bool
  audioDuration : Option ℚ
  imageCloseFails : Bool
  audioCloseFails : Bool
deriving Repr

/-- The body of the `try` in `_manage_clips`: open the image clip, check its
size, open the audio clip, check its duration truthiness, then run the body.
Besides the outcome it reports which clips were successfully opened (the
local variables that are not `None` when the `finally` block runs). -/
def manageClipsAcquire (env : ClipEnv) (body : Except Exc α) :
    Except Exc α × Bool × Bool :=
  if env.imageOpens = false then
    (.error (.otherError "ImageClip constructor raised"), false, false)
  else if sizeCheckFails env.imageClipSize then
    (.error (.videoProcessingError "Failed to load image: invalid dimensions"), true, false)
  else if env.audioOpens = false then
    (.error (.otherError "AudioFileClip constructor raised"), true, false)
  else if truthyDuration env.audioDuration = false then
    (.error (.videoProcessingError "Failed to load audio: invalid duration"), true, true)
  else (body, true, true)

/-- One `clip.close()` call wrapped in `try/except Exception: logger.warning`:
the close is attempted exactly once; a raising close produces a log line and
nothing else. -/
def closeClip (closeFails : Bool) : Nat × List String :=
  match (if closeFails then Except.error (Exc.otherError "close raised")
         else Except.ok ()) with
  | .ok _ => (1, [])
  | .error _ => (1, ["warning: error closing clip"])

/-- `_manage_clips`: run the acquisition and body, then the `finally` block,
which closes each clip that was opened, suppressing close errors.  Returns
the propagated outcome together with, for each clip, the number of close
calls and the warnings logged while closing. -/
def manageClips (env : ClipEnv) (body : Except Exc α) :
    Except Exc α × (Nat × List String) × (Nat × List String) :=
  match manageClipsAcquire env body with
  | (res, imgOpened, audOpened) =>
    let ic := if imgOpened then closeClip env.imageCloseFails else (0, [])
    let ac := if audOpened then closeClip env.audioCloseFails else (0, [])
    (res, ic, ac)

/-- True when `_manage_clips` gets past both constructors and both property
checks, so that the body runs with both clips open. -/
def clipsAcquiredOk (env : ClipEnv) : Bool :=
  env.imageOpens && !sizeCheckFails env.imageClipSize &&
    env.audioOpens && truthyDuration env.audioDuration

/-- The `Settings` fields `create_video` reads. -/
structure Settings where
  MAX_VIDEO_LENGTH : ℚ := 180
  DURATION_TOLERANCE : ℚ := 1/2
  OUTPUT_RESOLUTION : Nat × Nat := (1024, 1024)
deriving Repr

/-- The external world of one `create_video` call: what the filesystem,
PIL, moviepy and the encoder do. -/
structure VEnv where
  imageExists : Bool
  audioExists : Bool
  imageFileSize : Nat
  audioFileSize : Nat
  pilOpens : Bool
  pilSizeValid : Bool
  clips : ClipEnv
  kenBurns : KenBurnsConfig
  coin : Bool
  renderOk : Bool
  outputPath : String
deriving Repr

/-- `_validate_inputs`: existence, non-zero byte size, and a PIL decode
probe whose failures (including the inner dimension check) are re-raised as
`VideoProcessingError`. -/
def validateInputs (env : VEnv) : Except Exc Unit :=
  if env.imageExists = false then .error (.videoProcessingError "Image file not found")
  else if env.audioExists = false then .error (.videoProcessingError "Audio file not found")
  else if env.imageFileSize = 0 then .error (.videoProcessingError "Image file is empty")
  else if env.audioFileSize = 0 then .error (.videoProcessingError "Audio file is empty")
  else if env.pilOpens = false then .error (.videoProcessingError "Failed to validate image")
  else if env.pilSizeValid = false then
    .error (.videoProcessingError "Failed to validate image: Invalid image dimensions")
  else .ok ()

/-- The message of the duration-exceeded error raised by `create_video`. -/
def durationExceededMsg : String := "Audio duration exceeds maximum allowed length with tolerance"

/-- `_render_final_video`: re-check the audio duration in
`_prepare_video_clip`, apply the Ken Burns effect (whose own duration check
passes, the clip duration having been set from the audio), then write the
video file, which can fail with an encoder error. -/
def renderFinalVideo (env : VEnv) : Except Exc String :=
  if truthyDuration env.clips.audioDuration = false then
    .error (.videoProcessingError "Invalid audio: missing duration")
  else
    match applyEnhancedKenBurns env.clips.audioDuration env.kenBurns env.coin with
    | .error e => .error e
    | .ok _ =>
      if env.renderOk = false then .error (.otherError "encoder failure")
      else .ok env.outputPath

/-- Pipeline stages recorded by the embedding, in the order `create_video`
performs them. -/
inductive Event where
  | validated
  | clipsAcquired
  | durationChecked
  | resolutionProcessed
  | rendered
deriving DecidableEq, Repr

/-- The body of the `with self._manage_clips(...)` block in `create_video`:
re-check the audio duration, enforce the maximum length with tolerance,
process the resolution, render.  Also records which stages completed. -/
def createVideoBody (s : Settings) (env : VEnv) : Except Exc String × List Event :=
  if truthyDuration env.clips.audioDuration = false then
    (.error (.videoProcessingError "Invalid audio: missing duration"), [])
  else
    let dur := env.clips.audioDuration.getD 0
    if s.MAX_VIDEO_LENGTH + s.DURATION_TOLERANCE < dur then
      (.error (.videoProcessingError durationExceededMsg), [])
    else
      match processResolution s.OUTPUT_RESOLUTION.1 s.OUTPUT_RESOLUTION.2
          ⟨env.clips.imageClipSize⟩ with
      | .error e => (.error e, [.durationChecked])
      | .ok _ =>
        match renderFinalVideo env with
        | .error e => (.error e, [.durationChecked, .resolutionProcessed])
        | .ok p => (.ok p, [.durationChecked, .resolutionProcessed, .rendered])

/-- `create_video` before its `except` handlers: validation, then the
guarded acquisition with the body above.  Returns the outcome and the trace
of completed stages. -/
def createVideoCore (s : Settings) (env : VEnv) : Except Exc String × List Event :=
  match validateInputs env with
  | .error e => (.error e, [])
  | .ok _ =>
    let bodyRes := createVideoBody s env
    let managed := manageClips env.clips bodyRes.1
    if clipsAcquiredOk env.clips then
      (managed.1, [.validated, .clipsAcquired] ++ bodyRes.2)
    else
      (managed.1, [.validated])

/-- `create_video`: both `except` handlers turn any raised exception into a
`None` return; a normal return surfaces the output path. -/
def createVideo (s : Settings) (env : VEnv) : Option String :=
  match (createVideoCore s env).1 with
  | .ok p => some p
  | .error _ => none

/-- A concrete random stream used to evaluate the code: draw `n` is `n / 10`. -/
def demoStream : RandState := ⟨fun n => (n : ℚ) / 10, 0⟩

/-- A concrete configuration with the dataclass defaults made explicit. -/
def demoConfig : KenBurnsConfig := ⟨(1, 6/5), (-1/2, 1/2), "random"⟩

/-- A concrete environment in which every step succeeds and the audio lasts
10 seconds. -/
def envGood : VEnv :=
  ⟨true, true, 2048, 4096, true, true,
   ⟨true, some (some 1024, some 1024), true, some 10, false, false⟩,
   ⟨(1, 6/5), (-1/2, 1/2), "random"⟩, true, true, "output/video.mp4"⟩

/-- `envGood` with a missing image file. -/
def envMissingImage : VEnv := { envGood with imageExists := false }

/-- `envGood` with a 300-second audio track, exceeding `180 + 0.5`. -/
def envTooLong : VEnv :=
  { envGood with clips := { envGood.clips with audioDuration := some 300 } }

/-- The default settings: maximum length 180 s, tolerance 0.5 s, canvas
1024x1024. -/
def defaultSettings : Settings := ⟨180, 1/2, (1024, 1024)⟩

end MoneyPrinter

namespace MoneyPrinter

/-- The outcome `_manage_clips` propagates is the outcome of its `try` part:
the `finally` block never replaces it. -/
lemma manageClips_fst (env : ClipEnv) (body : Except Exc α) :
    (manageClips env body).1 = (manageClipsAcquire env body).1 := by
  unfold manageClips
  rcases h : manageClipsAcquire env body with ⟨r, io, ao⟩
  simp [h]

/-- When both clips open and validate, the `try` part of `_manage_clips`
yields the body's outcome with both clips open. -/
lemma manageClipsAcquire_of_ok (env : ClipEnv) (body : Except Exc α)
    (h : clipsAcquiredOk env = true) :
    manageClipsAcquire env body = (body, true, true) := by
  unfold clipsAcquiredOk at h
  simp only [Bool.and_eq_true, Bool.not_eq_true'] at h
  obtain ⟨⟨⟨h1, h2⟩, h3⟩, h4⟩ := h
  unfold manageClipsAcquire
  simp [h1, h2, h3, h4]

/-- C2: the easing used by the motion engine agrees with the spec's curve at
`u = t / duration`; that curve satisfies `e 0 = 0`, `e 1 = 1`,
`e (1/2) = 1/2`, equals `2u^2` below `1/2` and `1 - 2(1-u)^2` from `1/2` on,
and is monotonically non-decreasing on `[0,1]`; consequently the zoom starts
at `z0` and ends at `z1` for direction `in`, with the endpoints swapped for
direction `out`. -/
theorem C2_easing_curve_and_zoom_endpoints (cfg : KenBurnsConfig) (d : ℚ)
    (hd : 0 < d) :
    (∀ t, ease_in_out d t = easeSpec (t / d)) ∧
    easeSpec 0 = 0 ∧ easeSpec 1 = 1 ∧ easeSpec (1/2) = 1/2 ∧
    (∀ u, u < 1/2 → easeSpec u = 2 * u ^ 2) ∧
    (∀ u, 1/2 ≤ u → easeSpec u = 1 - 2 * (1 - u) ^ 2) ∧
    (∀ u v : ℚ, 0 ≤ u → u ≤ v → v ≤ 1 → easeSpec u ≤ easeSpec v) ∧
    zoom_effect cfg "in" d 0 = cfg.zoomRange.1 ∧
    zoom_effect cfg "in" d d = cfg.zoomRange.2 ∧
    zoom_effect cfg "out" d 0 = cfg.zoomRange.2 ∧
    zoom_effect cfg "out" d d = cfg.zoomRange.1 := by
  have hd0 : d ≠ 0 := ne_of_gt hd
  have heq : ∀ t, ease_in_out d t = easeSpec (t / d) := by
    intro t
    unfold ease_in_out easeSpec
    by_cases h : t / d < 1/2 <;> simp [h] <;> ring_nf
  have h0 : easeSpec 0 = 0 := by norm_num [easeSpec]
  have h1 : easeSpec 1 = 1 := by norm_num [easeSpec]
  have hhalf : easeSpec (1/2) = 1/2 := by norm_num [easeSpec]
  have hmono : ∀ u v : ℚ, 0 ≤ u → u ≤ v → v ≤ 1 → easeSpec u ≤ easeSpec v := by
    intro u v hu huv hv
    unfold easeSpec
    split_ifs with ha hb hb
    · nlinarith [mul_nonneg (sub_nonneg.mpr huv) (by linarith : (0:ℚ) ≤ u + v)]
    · nlinarith [mul_nonneg (by linarith : (0:ℚ) ≤ 1 - v)
        (by linarith : (0:ℚ) ≤ 1/2 - (1 - v)),
        mul_nonneg (by linarith : (0:ℚ) ≤ 1/2 - u) (by linarith : (0:ℚ) ≤ 1/2 + u)]
    · linarith
    · nlinarith [mul_nonneg (sub_nonneg.mpr huv) (by linarith : (0:ℚ) ≤ 2 - u - v)]
  have hdd : d / d = 1 := div_self hd0
  have hz : (0:ℚ) / d = 0 := zero_div d
  have e0 : ease_in_out d 0 = 0 := by rw [heq 0, hz, h0]
  have ed : ease_in_out d d = 1 := by rw [heq d, hdd, h1]
  have hio : ¬ (("in" : String) = "out") := by decide
  have hoo : (("out" : String) = "out") := rfl
  refine ⟨heq, h0, h1, hhalf, ?_, ?_, hmono, ?_, ?_, ?_, ?_⟩
  · intro u h; unfold easeSpec; rw [if_pos h]
  · intro u h; unfold easeSpec; rw [if_neg (not_lt.mpr h)]
  · unfold zoom_effect; rw [if_neg hio, if_neg hio, e0]; ring
  · unfold zoom_effect; rw [if_neg hio, if_neg hio, ed]; ring
  · unfold zoom_effect; rw [if_pos hoo, if_pos hoo, e0]; ring
  · unfold zoom_effect; rw [if_pos hoo, if_pos hoo, ed]; ring

/-- Witness for C2 at the concrete duration `d = 2`. -/
theorem C2_easing_curve_and_zoom_endpoints_witness :
    (0:ℚ) < 2 ∧ easeSpec 0 = 0 :=
  ⟨by norm_num, (C2_easing_curve_and_zoom_endpoints demoConfig 2 (by norm_num)).2.1⟩

/-- C7 fails: the easing performs no clamping, so samples outside
`[0, duration]` do not coincide with the endpoint samples.  At duration `1`,
the eased progress at `t = -1` is `2` while at `t = 0` it is `0`, and at
`t = 2` it is `-1` while at `t = 1` it is `1`; the zoom inherits the
difference. -/
theorem C7_counterexample_no_clamp :
    ease_in_out 1 (-1) = 2 ∧ ease_in_out 1 0 = 0 ∧
    ease_in_out 1 (-1) ≠ ease_in_out 1 0 ∧
    ease_in_out 1 2 = -1 ∧ ease_in_out 1 1 = 1 ∧
    ease_in_out 1 2 ≠ ease_in_out 1 1 ∧
    zoom_effect demoConfig "in" 1 (-1) ≠ zoom_effect demoConfig "in" 1 0 := by
  have hio : ¬ (("in" : String) = "out") := by decide
  norm_num [ease_in_out, zoom_effect, demoConfig, hio]

/-- C7 amended: the easing normalizes `u = t / duration` and applies the same
piecewise quadratic everywhere, without clamping: for `t < 0` the eased
progress is `2 (t/d)^2`, and for `t > duration` it is `1 - 2 (t/d - 1)^2`. -/
theorem C7_amended_no_clamping (d t : ℚ) (hd : 0 < d) :
    (t < 0 → ease_in_out d t = 2 * (t / d) ^ 2) ∧
    (d < t → ease_in_out d t = 1 - 2 * (t / d - 1) ^ 2) := by
  constructor
  · intro ht
    have hu : t / d < 1/2 := by
      have : t / d < 0 := div_neg_of_neg_of_pos ht hd
      linarith
    simp only [ease_in_out, hu, if_true]
    ring
  · intro ht
    have hu : (1:ℚ) < t / d := (one_lt_div hd).mpr ht
    have hu' : ¬ t / d < 1/2 := by push_neg; linarith
    simp only [ease_in_out, hu', if_false]
    ring

/-- Witness for C7's amended statement at `d = 1`, `t = -1`. -/
theorem C7_amended_no_clamping_witness :
    (0:ℚ) < 1 ∧ ((-1:ℚ) < 0 → ease_in_out 1 (-1) = 2 * ((-1:ℚ) / 1) ^ 2) :=
  ⟨by norm_num, (C7_amended_no_clamping 1 (-1) (by norm_num)).1⟩

/-- C1 fails on the code: `pan_effect` draws two fresh uniform values on
every call, so two evaluations at the same timestamp within one render
return different offsets.  With the concrete stream `n / 10`, pan range
`(-1/2, 1/2)` and duration `2`, evaluating at `t = 1` (eased progress `1/2`)
yields `(-1/4, -1/5)` the first time and `(-3/20, -1/10)` the second. -/
theorem C1_pan_resampled_every_call :
    (pan_effect demoConfig 2 1 demoStream).1 = (-1/4, -1/5) ∧
    (pan_effect demoConfig 2 1 (pan_effect demoConfig 2 1 demoStream).2).1 =
      (-3/20, -1/10) ∧
    (pan_effect demoConfig 2 1 demoStream).1 ≠
      (pan_effect demoConfig 2 1 (pan_effect demoConfig 2 1 demoStream).2).1 := by
  norm_num [pan_effect, randUniform, ease_in_out, demoConfig, demoStream]

/-- C10: the direction string is never validated.  Any direction other than
`random` and `out` is kept unchanged by the one-time resolution, the effect
application accepts the config, and the zoom is identical to direction
`in` at every timestamp, animating from `zoomRange.1` to `zoomRange.2`. -/
theorem C10_unvalidated_direction_behaves_as_in (cfg : KenBurnsConfig)
    (coin : Bool) (dur : ℚ) (hrand : cfg.direction ≠ "random")
    (hout : cfg.direction ≠ "out") :
    resolveDirection cfg.direction coin = cfg.direction ∧
    (∀ cd, truthyDuration cd = true →
      applyEnhancedKenBurns cd cfg coin = .ok cfg.direction) ∧
    (∀ t, zoom_effect cfg cfg.direction dur t = zoom_effect cfg "in" dur t) := by
  refine ⟨?_, ?_, ?_⟩
  · simp [resolveDirection, hrand]
  · intro cd hcd
    simp [applyEnhancedKenBurns, hcd, resolveDirection, hrand]
  · intro t
    have hin : "in" ≠ "out" := by decide
    simp [zoom_effect, hout, hin]

/-- Witness for C10 with the invalid direction string `zoom`. -/
theorem C10_unvalidated_direction_behaves_as_in_witness :
    ("zoom" ≠ "random" ∧ "zoom" ≠ "out") ∧
    resolveDirection "zoom" true = "zoom" := by
  refine ⟨⟨by decide, by decide⟩, ?_⟩
  exact (C10_unvalidated_direction_behaves_as_in
    ⟨(1, 6/5), (-1/2, 1/2), "zoom"⟩ true 2 (by decide) (by decide)).1

/-- C8: for every source image whose width or height is zero (a size the
shared guard does not reject), `_process_resolution` raises — the division
computing the scaling factor hits `ZeroDivisionError` — so it never returns
a clip for such inputs. -/
theorem C8_zero_dimension_raises (tw th w h : Nat) (hz : w = 0 ∨ h = 0) :
    processResolution tw th ⟨some (some w, some h)⟩ =
      .error .zeroDivisionError := by
  unfold processResolution pydiv
  rcases hz with rfl | rfl
  · simp
  · by_cases hw : w = 0
    · subst hw; simp
    · have hwQ : ¬ ((w : ℚ) = 0) := by exact_mod_cast hw
      simp [hwQ]

/-- Witness for C8 at a zero-width image and a 10x10 canvas. -/
theorem C8_zero_dimension_raises_witness :
    processResolution 10 10 ⟨some (some 0, some 5)⟩ =
      .error .zeroDivisionError :=
  C8_zero_dimension_raises 10 10 0 5 (Or.inl rfl)

/-- C5 fails as stated: the code resizes with Python `int` (truncation), not
`round`.  For a 2x3 image on a 10x10 canvas the scale is `10/3`, the code
computes width `int(20/3) = 6`, while `round(20/3) = 7`. -/
theorem C5_counterexample_trunc_not_round :
    processResolution 10 10 ⟨some (some 2, some 3)⟩ =
      .ok (.composite 10 10 6 10 2 0) ∧
    round ((2 : ℚ) * min ((10 : ℚ) / 2) ((10 : ℚ) / 3)) = 7 ∧
    (6 : ℤ) ≠ round ((2 : ℚ) * min ((10 : ℚ) / 2) ((10 : ℚ) / 3)) := by
  have hround : round ((2 : ℚ) * min ((10 : ℚ) / 2) ((10 : ℚ) / 3)) = 7 := by
    norm_num [min_def, round_eq]
  refine ⟨?_, hround, by rw [hround]; decide⟩
  norm_num [processResolution, pydiv, pytrunc, min_def, Int.fdiv]
  rfl

/-- C5 amended: for every source image with positive width and height,
`_process_resolution` computes `scale = min(target_w/img_w, target_h/img_h)`,
resizes to the truncated size `(int(img_w*scale), int(img_h*scale))` — floor,
not round, the values being non-negative — returns the resized image
unchanged when that size equals the canvas, and otherwise composites it at
offsets `x = (target_w - new_w) // 2`, `y = (target_h - new_h) // 2` on a
black canvas-sized background; the final size is exactly the canvas. -/
theorem C5_amended_truncating_resize (tw th w h : Nat) (hw : 0 < w)
    (hh : 0 < h) :
    ∃ (nw nh : ℕ) (r : ProcImage),
      processResolution tw th ⟨some (some w, some h)⟩ = .ok r ∧
      (nw : ℤ) = ⌊(w : ℚ) * min ((tw : ℚ) / (w : ℚ)) ((th : ℚ) / (h : ℚ))⌋ ∧
      (nh : ℤ) = ⌊(h : ℚ) * min ((tw : ℚ) / (w : ℚ)) ((th : ℚ) / (h : ℚ))⌋ ∧
      (((nw, nh) = (tw, th) ∧ r = .plain nw nh) ∨
        ((nw, nh) ≠ (tw, th) ∧
          r = .composite tw th nw nh (((tw : ℤ) - nw).fdiv 2)
            (((th : ℤ) - nh).fdiv 2))) ∧
      procSize r = (tw, th) := by
  have hwQ : ¬ ((w : ℚ) = 0) := by exact_mod_cast Nat.pos_iff_ne_zero.mp hw
  have hhQ : ¬ ((h : ℚ) = 0) := by exact_mod_cast Nat.pos_iff_ne_zero.mp hh
  have hs0 : 0 ≤ min ((tw : ℚ) / (w : ℚ)) ((th : ℚ) / (h : ℚ)) :=
    le_min (div_nonneg (Nat.cast_nonneg tw) (Nat.cast_nonneg w))
      (div_nonneg (Nat.cast_nonneg th) (Nat.cast_nonneg h))
  have hwm : ¬ ((w : ℚ) * min ((tw : ℚ) / (w : ℚ)) ((th : ℚ) / (h : ℚ)) < 0) :=
    not_lt.mpr (mul_nonneg (Nat.cast_nonneg w) hs0)
  have hhm : ¬ ((h : ℚ) * min ((tw : ℚ) / (w : ℚ)) ((th : ℚ) / (h : ℚ)) < 0) :=
    not_lt.mpr (mul_nonneg (Nat.cast_nonneg h) hs0)
  have hwf : 0 ≤ ⌊(w : ℚ) * min ((tw : ℚ) / (w : ℚ)) ((th : ℚ) / (h : ℚ))⌋ :=
    Int.floor_nonneg.mpr (not_lt.mp hwm)
  have hhf : 0 ≤ ⌊(h : ℚ) * min ((tw : ℚ) / (w : ℚ)) ((th : ℚ) / (h : ℚ))⌋ :=
    Int.floor_nonneg.mpr (not_lt.mp hhm)
  refine ⟨(⌊(w : ℚ) * min ((tw : ℚ) / (w : ℚ)) ((th : ℚ) / (h : ℚ))⌋).toNat,
    (⌊(h : ℚ) * min ((tw : ℚ) / (w : ℚ)) ((th : ℚ) / (h : ℚ))⌋).toNat, ?_⟩
  unfold processResolution pydiv pytrunc
  simp only [hwQ, hhQ, hwm, hhm, if_false]
  split_ifs with hif
  · exact ⟨_, rfl, by rw [Int.toNat_of_nonneg hwf], by rw [Int.toNat_of_nonneg hhf],
      Or.inl ⟨hif, rfl⟩, by rw [procSize]; exact hif⟩
  · exact ⟨_, rfl, by rw [Int.toNat_of_nonneg hwf], by rw [Int.toNat_of_nonneg hhf],
      Or.inr ⟨hif, rfl⟩, rfl⟩

/-- Witness for C5's amended statement at an 800x600 image and a 1024x1024
canvas: scale `1024/800 = 32/25`, resized size `(1024, 768)`,
composited at offsets `(0, 128)`. -/
theorem C5_amended_truncating_resize_witness :
    (0 < 800 ∧ 0 < 600) ∧
    processResolution 1024 1024 ⟨some (some 800, some 600)⟩ =
      .ok (.composite 1024 1024 1024 768 0 128) := by
  refine ⟨⟨by decide, by decide⟩, ?_⟩
  obtain ⟨-, -, -, -, -, -, -, -⟩ :=
    C5_amended_truncating_resize 1024 1024 800 600 (by decide) (by decide)
  norm_num [processResolution, pydiv, pytrunc, min_def, Int.fdiv]
  rfl

/-- `_process_resolution` never raises the duration-exceeded error. -/
lemma processResolution_ne_duration_error (tw th : Nat) (img : MPImageClip) :
    processResolution tw th img ≠
      .error (.videoProcessingError durationExceededMsg) := by
  obtain ⟨_ | ⟨ow, oh⟩⟩ := img
  · simp [processResolution, durationExceededMsg]
  · obtain _ | w := ow
    · simp [processResolution, durationExceededMsg]
    · obtain _ | h := oh
      · simp [processResolution, durationExceededMsg]
      · unfold processResolution pydiv
        by_cases hw : ((w : ℚ)) = 0 <;> by_cases hh : ((h : ℚ)) = 0 <;>
          simp only [hw, hh, if_true, if_false, eq_self_iff_true] <;>
            first
              | (split_ifs <;> simp [durationExceededMsg])
              | simp [durationExceededMsg]

/-- `_render_final_video` never raises the duration-exceeded error. -/
lemma renderFinalVideo_ne_duration_error (env : VEnv) :
    renderFinalVideo env ≠
      .error (.videoProcessingError durationExceededMsg) := by
  unfold renderFinalVideo applyEnhancedKenBurns
  split_ifs <;> simp [durationExceededMsg]

/-- C4: `_manage_clips` closes every successfully opened clip exactly once on
every exit path — the image clip whenever its constructor succeeded, the
audio clip whenever both the image checks and its own constructor succeeded —
the propagated outcome is always the primary outcome of the `try` part, it is
unchanged under any behavior of the `close()` calls, a raising close is
logged, and when both clips are acquired the body's outcome (including any
exception it raises) is what propagates. -/
theorem C4_manage_clips_release (α : Type) (env : ClipEnv) (body : Except Exc α) :
    ((manageClips env body).2.1.1 = if env.imageOpens then 1 else 0) ∧
    ((manageClips env body).2.2.1 =
      if env.imageOpens && !sizeCheckFails env.imageClipSize && env.audioOpens
      then 1 else 0) ∧
    (manageClips env body).1 = (manageClipsAcquire env body).1 ∧
    (∀ b b', (manageClips { env with imageCloseFails := b, audioCloseFails := b' }
      body).1 = (manageClips env body).1) ∧
    (env.imageCloseFails = true → env.imageOpens = true →
      (manageClips env body).2.1.2 = ["warning: error closing clip"]) ∧
    (clipsAcquiredOk env = true → (manageClips env body).1 = body) := by
  obtain ⟨io, isz, ao, ad, icf, acf⟩ := env
  cases io <;> cases ao <;> cases icf <;> cases acf <;>
    cases hs : sizeCheckFails isz <;> cases ht : truthyDuration ad <;>
      simp [manageClips, manageClipsAcquire, closeClip, clipsAcquiredOk, hs, ht]

/-- Witness for C4: with both clips open, a body that raises, and both
close calls raising, the body's error still propagates. -/
theorem C4_manage_clips_release_witness :
    clipsAcquiredOk ⟨true, some (some 1024, some 1024), true, some 5, true, true⟩ = true ∧
    (manageClips ⟨true, some (some 1024, some 1024), true, some 5, true, true⟩
      (Except.error (Exc.otherError "render failed") : Except Exc Nat)).1 =
      Except.error (Exc.otherError "render failed") := by
  refine ⟨rfl, ?_⟩
  exact (C4_manage_clips_release Nat
    ⟨true, some (some 1024, some 1024), true, some 5, true, true⟩
    (Except.error (Exc.otherError "render failed"))).2.2.2.2.2 rfl

/-- C3: once validation passed and the clips are acquired, the duration check
fails exactly when the audio duration is strictly above
`MAX_VIDEO_LENGTH + DURATION_TOLERANCE` (equality is accepted and synthesis
proceeds past the check); on failure the trace stops right after clip
acquisition — no resolution processing, no rendering, no output file — and
the call returns the failure outcome `none`. -/
theorem C3_duration_check (s : Settings) (env : VEnv)
    (hval : validateInputs env = .ok ())
    (hacq : clipsAcquiredOk env.clips = true) :
    (s.MAX_VIDEO_LENGTH + s.DURATION_TOLERANCE < env.clips.audioDuration.getD 0 →
      (createVideoCore s env).1 = .error (.videoProcessingError durationExceededMsg) ∧
      (createVideoCore s env).2 = [.validated, .clipsAcquired] ∧
      Event.resolutionProcessed ∉ (createVideoCore s env).2 ∧
      Event.rendered ∉ (createVideoCore s env).2 ∧
      createVideo s env = none) ∧
    (env.clips.audioDuration.getD 0 ≤ s.MAX_VIDEO_LENGTH + s.DURATION_TOLERANCE →
      (createVideoCore s env).1 ≠ .error (.videoProcessingError durationExceededMsg) ∧
      Event.durationChecked ∈ (createVideoCore s env).2) := by
  have ht : truthyDuration env.clips.audioDuration = true := by
    have h := hacq
    unfold clipsAcquiredOk at h
    simp only [Bool.and_eq_true] at h
    exact h.2
  have hcore : createVideoCore s env =
      ((createVideoBody s env).1,
        [.validated, .clipsAcquired] ++ (createVideoBody s env).2) := by
    unfold createVideoCore
    rw [hval]
    simp only [hacq, if_true, manageClips_fst]
    rw [manageClipsAcquire_of_ok _ _ hacq]
  have htne : ¬ (truthyDuration env.clips.audioDuration = false) := by simp [ht]
  constructor
  · intro hover
    have hbody : createVideoBody s env =
        (.error (.videoProcessingError durationExceededMsg), []) := by
      unfold createVideoBody
      rw [if_neg htne, if_pos hover]
    simp [createVideo, hcore, hbody]
  · intro hunder
    have hnot : ¬ (s.MAX_VIDEO_LENGTH + s.DURATION_TOLERANCE <
        env.clips.audioDuration.getD 0) := not_lt.mpr hunder
    rw [hcore]
    unfold createVideoBody
    rw [if_neg htne, if_neg hnot]
    have hne1 := processResolution_ne_duration_error s.OUTPUT_RESOLUTION.1
      s.OUTPUT_RESOLUTION.2 ⟨env.clips.imageClipSize⟩
    have hne2 := renderFinalVideo_ne_duration_error env
    rcases hp : processResolution s.OUTPUT_RESOLUTION.1 s.OUTPUT_RESOLUTION.2
        ⟨env.clips.imageClipSize⟩ with e | img
    · rw [hp] at hne1
      exact ⟨by simpa using hne1, by simp⟩
    · rcases hr : renderFinalVideo env with e2 | p
      · rw [hr] at hne2
        exact ⟨by simpa using hne2, by simp⟩
      · exact ⟨by simp, by simp⟩

/-- Witness for C3: a 300-second audio track against the default maximum of
180 s with tolerance 0.5 s is rejected and the call returns `None`. -/
theorem C3_duration_check_witness :
    validateInputs envTooLong = .ok () ∧
    clipsAcquiredOk envTooLong.clips = true ∧
    createVideo defaultSettings envTooLong = none := by
  refine ⟨rfl, rfl, ?_⟩
  exact ((C3_duration_check defaultSettings envTooLong rfl rfl).1
    (by norm_num [envTooLong, envGood, defaultSettings])).2.2.2.2

/-- C6 fails as stated: a failed call surfaces no error kind or cause to the
caller.  A missing image file and an over-long audio track raise different
errors, yet `create_video` returns the same bare `None` for both. -/
theorem C6_counterexample_failure_info_lost :
    createVideo defaultSettings envMissingImage = none ∧
    createVideo defaultSettings envTooLong = none ∧
    (createVideoCore defaultSettings envMissingImage).1 =
      .error (.videoProcessingError "Image file not found") ∧
    (createVideoCore defaultSettings envTooLong).1 =
      .error (.videoProcessingError durationExceededMsg) ∧
    (createVideoCore defaultSettings envMissingImage).1 ≠
      (createVideoCore defaultSettings envTooLong).1 := by
  have h1 : (createVideoCore defaultSettings envMissingImage).1 =
      .error (.videoProcessingError "Image file not found") := rfl
  have h2 : (createVideoCore defaultSettings envTooLong).1 =
      .error (.videoProcessingError durationExceededMsg) := by
    norm_num [createVideoCore, createVideoBody, validateInputs, manageClips,
      manageClipsAcquire, clipsAcquiredOk, sizeCheckFails, truthyDuration,
      envTooLong, envGood, defaultSettings]
  refine ⟨rfl, ?_, h1, h2, ?_⟩
  · unfold createVideo
    rw [h2]
  · rw [h1, h2]
    simp [durationExceededMsg]

/-- C6 amended: `create_video` surfaces exactly one outcome per call — the
output path when the pipeline succeeded, `None` exactly when any error was
raised.  The error kind and cause are logged, not carried in the returned
value, and expected validation or duration failures are returned as `None`
rather than raised. -/
theorem C6_amended_single_outcome (s : Settings) (env : VEnv) :
    (∀ p, createVideo s env = some p ↔ (createVideoCore s env).1 = .ok p) ∧
    (createVideo s env = none ↔ ∃ e, (createVideoCore s env).1 = .error e) := by
  unfold createVideo
  rcases h : (createVideoCore s env).1 with e | p <;> simp [h]

/-- Witness for C6's amended statement: the missing-image failure surfaces
as `None`. -/
theorem C6_amended_single_outcome_witness :
    createVideo defaultSettings envMissingImage = none :=
  (C6_amended_single_outcome defaultSettings envMissingImage).2.mpr
    ⟨.videoProcessingError "Image file not found", rfl⟩

/-- C9: `create_video` propagates no exception: whatever error the pipeline
raises — a `VideoProcessingError`, a `ZeroDivisionError` or any other
exception from validation, acquisition, processing or rendering — the
handlers return `None`, and a normal completion returns the output path. -/
theorem C9_no_exception_propagates (s : Settings) (env : VEnv) :
    (∀ msg, (createVideoCore s env).1 = .error (.videoProcessingError msg) →
      createVideo s env = none) ∧
    ((createVideoCore s env).1 = .error .zeroDivisionError →
      createVideo s env = none) ∧
    (∀ msg, (createVideoCore s env).1 = .error (.otherError msg) →
      createVideo s env = none) ∧
    (∀ p, (createVideoCore s env).1 = .ok p → createVideo s env = some p) := by
  unfold createVideo
  rcases h : (createVideoCore s env).1 with e | p <;> simp [h]

/-- Witness for C9: the missing-image `VideoProcessingError` is swallowed
and the call returns `None`. -/
theorem C9_no_exception_propagates_witness :
    createVideo defaultSettings envMissingImage = none :=
  (C9_no_exception_propagates defaultSettings envMissingImage).1
    "Image file not found" rfl

end MoneyPrinter
